import Mathlib

/-!
# Verification of the Myauto dubbing core

Shallow embedding of the job-pipeline core of the Myauto project:

* the adaptive mitigation engine
  (`src/services/adaptive_mitigation_service.py`),
* the task state machine (`src/models/video_task.py`, `update_status`),
* the pipeline orchestrator (`src/routes/dubbing.py`, `dubbing_task`).

File I/O is modelled by an explicit file state, randomness by explicit
parameters, and Python exceptions by `Except` values that carry the
object state at the moment the exception is raised (Python mutates
`self` in place, so a raise can leave a partially-updated record).
Python floats arising as ratios of small integers are modelled as `ℚ`.
-/

/-! ## Adaptive mitigation engine -/

/-- The `mitigation_params` sub-dictionary of one outcome record, as written
by `YouTubeService._log_download_outcome`.  `_analyze_logs` reads
`proxy_used` / `cookies_used` with `.get(_, False)`; the `Bool` fields here
hold that already-defaulted truthy value. -/
structure MitigationParams where
  user_agent : Option String
  sleep_interval : Option ℚ
  proxy_used : Bool
  cookies_used : Bool
deriving DecidableEq

/-- One well-formed outcome record (one JSON line of the log file). -/
structure OutcomeEntry where
  timestamp : ℚ
  url : String
  success : Bool
  error_message : Option String
  mitigation_params : MitigationParams
deriving DecidableEq

/-- One physical line of the log file: either malformed text that
`json.loads` rejects, or a parsed outcome record. -/
inductive LogLine where
  | malformed (raw : String)
  | parsed (entry : OutcomeEntry)
deriving DecidableEq

/-- State of the log file: missing, present but unreadable (opening or
reading raises), or a readable sequence of lines. -/
inductive FileState where
  | absent
  | unreadable
  | lines (ls : List LogLine)
deriving DecidableEq

/-- The parsed entries of a line list, in order; malformed lines are
skipped (the `except json.JSONDecodeError` arm). -/
def parsedEntries (ls : List LogLine) : List OutcomeEntry :=
  ls.filterMap fun l =>
    match l with
    | .malformed _ => none
    | .parsed e => some e

/-- Success/total counts accumulated by `_analyze_logs` for the key
`f"proxy_{p}_cookies_{c}"` (the key string is determined injectively by the
pair `(p, c)`, so we key by the pair). -/
def tally (ls : List LogLine) (p c : Bool) : Nat × Nat :=
  ls.foldl
    (fun acc l =>
      match l with
      | .malformed _ => acc
      | .parsed e =>
        if e.mitigation_params.proxy_used = p ∧ e.mitigation_params.cookies_used = c then
          ((if e.success then acc.1 + 1 else acc.1), acc.2 + 1)
        else acc)
    (0, 0)

/-- `_analyze_logs` composed with the `success_rates.get(key, 0.0)` lookup
done by `get_adaptive_params`: the success rate seen for the combination
`(p, c)`.  A missing file returns `{}`, a read error is caught and returns
`{}`, and a combination with zero attempts has no key — all three give the
default `0.0`. -/
def analyze_logs (fs : FileState) : Bool → Bool → ℚ :=
  match fs with
  | .absent => fun _ _ => 0
  | .unreadable => fun _ _ => 0
  | .lines ls => fun p c =>
    let t := tally ls p c
    if t.2 = 0 then 0 else (t.1 : ℚ) / (t.2 : ℚ)

/-- The enumeration order of the two nested `for` loops in
`get_adaptive_params`: `for proxy_val in [True, False]: for cookies_val in
[True, False]`. -/
def enumOrder : List (Bool × Bool) :=
  [(true, true), (true, false), (false, true), (false, false)]

/-- The selection loop of `get_adaptive_params`: running best
`((proxy, cookies), rate)` starting from `((False, False), -1)`, replaced
whenever a combination's rate is strictly greater. -/
def selectBest (rates : Bool → Bool → ℚ) : (Bool × Bool) × ℚ :=
  enumOrder.foldl
    (fun best k => if best.2 < rates k.1 k.2 then (k, rates k.1 k.2) else best)
    ((false, false), -1)

/-- The fixed user-agent rotation set of `AdaptiveMitigationService`. -/
def user_agents : List String :=
  ["Mozilla/5.0 (Windows NT 10.0; Win64; x64) AppleWebKit/537.36 (KHTML, like Gecko) Chrome/91.0.4472.124 Safari/537.36",
   "Mozilla/5.0 (Macintosh; Intel Mac OS X 10_15_7) AppleWebKit/537.36 (KHTML, like Gecko) Chrome/91.0.4472.124 Safari/537.36",
   "Mozilla/5.0 (X11; Linux x86_64) AppleWebKit/537.36 (KHTML, like Gecko) Chrome/91.0.4472.124 Safari/537.36"]

/-- The dictionary returned by `get_adaptive_params`. -/
structure AdaptiveParams where
  user_agent : String
  sleep_interval : ℚ
  proxy_enabled : Bool
  cookies_enabled : Bool
deriving DecidableEq

/-- `get_adaptive_params`, with the two random draws
(`random.choice(self.user_agents)` and `random.uniform(1, 3)`) supplied as
explicit parameters `uaIdx` and `sleep`. -/
def get_adaptive_params (fs : FileState) (uaIdx : Fin 3) (sleep : ℚ) :
    AdaptiveParams :=
  let rates := analyze_logs fs
  let best := selectBest rates
  { user_agent := user_agents.get ⟨uaIdx.val, by simp [user_agents]⟩
    sleep_interval := sleep
    proxy_enabled := best.1.1
    cookies_enabled := best.1.2 }

/-- Environment for one `record_outcome` call: the current file state plus
the I/O failures that can occur.  `write_fails_after = some n` means the
line-by-line write of the rewritten file raises after `n` entries have been
written (the `open(_, 'w')` already truncated the file). -/
structure RecordEnv where
  fs : FileState
  mkdir_fails : Bool
  write_fails_after : Option Nat
deriving DecidableEq

/-- The body of `record_outcome` without its outer `try/except`: makedirs,
read all well-formed entries (skipping malformed lines), append the new
entry, rewrite the whole file.  An error carries the file state at the
moment the exception is raised. -/
def record_outcome_body (env : RecordEnv) (entry : OutcomeEntry) :
    Except (String × FileState) FileState :=
  if env.mkdir_fails then .error ("makedirs failed", env.fs)
  else
    match env.fs with
    | .unreadable => .error ("read failed", .unreadable)
    | .absent =>
      match env.write_fails_after with
      | some n => .error ("write failed", .lines (([entry].take n).map LogLine.parsed))
      | none => .ok (.lines ([entry].map LogLine.parsed))
    | .lines ls =>
      let logs := parsedEntries ls ++ [entry]
      match env.write_fails_after with
      | some n => .error ("write failed", .lines ((logs.take n).map LogLine.parsed))
      | none => .ok (.lines (logs.map LogLine.parsed))

/-- `record_outcome`: the body wrapped in the source's
`try: ... except Exception as e: logger.error(...)` — every exception is
swallowed, so the caller always gets a normal (`.ok`) return. -/
def record_outcome (env : RecordEnv) (entry : OutcomeEntry) :
    Except String FileState :=
  match record_outcome_body env entry with
  | .ok fs => .ok fs
  | .error (_, fs) => .ok fs

/-! ## Task state machine (`VideoTask.update_status`) -/

/-- The fields of a `VideoTask` row that the state machine and the
orchestrator touch.  Timestamps are abstract instants (`Nat`);
`datetime.utcnow()` is supplied to `update_status` as the explicit
parameter `now`. -/
structure VideoTask where
  id : String
  youtube_url : String
  target_language : String
  source_language : String
  status : String
  progress : Int
  error_message : Option String
  original_video_path : Option String
  original_audio_path : Option String
  dubbed_audio_path : Option String
  final_video_path : Option String
  transcription_text : Option String
  translated_text : Option String
  processing_time : Option Int
  created_at : Nat
  updated_at : Nat
  started_at : Option Nat
  completed_at : Option Nat
deriving DecidableEq

/-- The `valid_statuses` list of `update_status`. -/
def validStatuses : List String :=
  ["pending", "downloading", "processing", "uploading",
   "completed", "failed", "cancelled"]

/-- The part of `update_status` after the two validations: record the
error message, set `started_at` on a first `downloading`/`processing`
transition, handle `completed` (force progress 100, set `completed_at`,
derive `processing_time`), and bump `updated_at`.  None of these steps can
raise. -/
def update_status_tail (t : VideoTask) (now : Nat) (status : String)
    (error_message : Option String) : VideoTask :=
  let t :=
    match error_message with
    | some m => { t with error_message := some m }
    | none => t
  let t :=
    if (status = "downloading" ∨ status = "processing") ∧ t.started_at = none then
      { t with started_at := some now }
    else t
  let t :=
    if status = "completed" then
      let t := { t with completed_at := some now, progress := 100 }
      match t.started_at with
      | some s => { t with processing_time := some ((now : Int) - (s : Int)) }
      | none => t
    else t
  { t with updated_at := now }

/-- `VideoTask.update_status`.  Python mutates `self` field by field and
raises `ValueError` on a bad status or out-of-range progress, so an error
result carries the record as already mutated at the moment of the raise:
the status assignment `self.status = status` happens *before* the progress
range check. -/
def update_status (t : VideoTask) (now : Nat) (status : String)
    (progress : Option Int) (error_message : Option String) :
    Except (String × VideoTask) VideoTask :=
  if status ∈ validStatuses then
    let t1 := { t with status := status }
    match progress with
    | some p =>
      if 0 ≤ p ∧ p ≤ 100 then
        .ok (update_status_tail { t1 with progress := p } now status error_message)
      else
        .error ("Progress must be between 0 and 100", t1)
    | none => .ok (update_status_tail t1 now status error_message)
  else
    .error ("Invalid status: " ++ status, t)

/-! ## Pipeline orchestrator (`dubbing_task`) -/

/-- One call made by the orchestrator to an external collaborator,
recording the arguments it was given. -/
inductive StageCall where
  | download (url : String) (dir : String)
  | extractAudio (videoPath : String)
  | preprocess (audioPath : String)
  | transcribe (audioPath : String) (sourceLang : String)
  | translate (text : String) (targetLang : String) (sourceLang : String)
  | textToSpeech (text : String) (languageCode : String)
  | mergeAudio (videoPath : String) (audioPath : String)
  | cleanup (dir : String)
deriving DecidableEq

/-- Results of the external collaborators for one pipeline run.  `none`
models the collaborator failing (each service wraps its own errors and
returns `None`). -/
structure PipelineEnv where
  download_result : Option String
  extract_result : Option String
  preprocess_result : Option String
  transcribe_result : Option String
  translate_result : Option String
  tts_result : Option String
  merge_result : Option String
deriving DecidableEq

/-- An `update_status` call as made from `dubbing_task`.  Every such call
passes a literal valid status and a literal in-range progress, so the
error branch is unreachable there; it is kept total by returning the
carried record state. -/
def updRun (t : VideoTask) (now : Nat) (status : String)
    (progress : Option Int) (error_message : Option String) : VideoTask :=
  match update_status t now status progress error_message with
  | .ok t' => t'
  | .error (_, t') => t'

/-- The Celery task `dubbing_task` of `src/routes/dubbing.py`: the
seven-stage run for one record, returning the final record together with
the trace of collaborator calls made.  The work directory
`/tmp/dubbing/{task_id}` is cleaned up (`cleanup_temp_files`) exactly where
the source calls it. -/
def dubbing_task (env : PipelineEnv) (t0 : VideoTask) (now : Nat) :
    VideoTask × List StageCall :=
  let download_dir := "/tmp/dubbing/" ++ t0.id
  let t := updRun t0 now "downloading" (some 10) none
  let calls := [StageCall.download t.youtube_url download_dir]
  match env.download_result with
  | none => (updRun t now "failed" none (some "Failed to download video"), calls)
  | some video_path =>
    let t := { t with original_video_path := some video_path }
    let t := updRun t now "processing" (some 30) none
    let calls := calls ++ [StageCall.extractAudio video_path]
    match env.extract_result with
    | none => (updRun t now "failed" none (some "Failed to extract audio"), calls)
    | some audio_path =>
      let calls := calls ++ [StageCall.preprocess audio_path]
      let processed_audio_path :=
        match env.preprocess_result with
        | some pp => pp
        | none => audio_path
      let t := { t with original_audio_path := some processed_audio_path }
      let t := updRun t now "processing" (some 50) none
      let calls := calls ++ [StageCall.transcribe processed_audio_path t.source_language]
      match env.transcribe_result with
      | none => (updRun t now "failed" none (some "Failed to transcribe audio"), calls)
      | some text =>
        let t := { t with transcription_text := some text }
        let t := updRun t now "processing" (some 70) none
        let calls := calls ++ [StageCall.translate text t.target_language t.source_language]
        match env.translate_result with
        | none => (updRun t now "failed" none (some "Failed to translate text"), calls)
        | some translated =>
          let t := { t with translated_text := some translated }
          let t := updRun t now "processing" (some 80) none
          let language_code :=
            if '-' ∈ t.target_language.data then t.target_language
            else t.target_language ++ "-US"
          let calls := calls ++ [StageCall.textToSpeech translated language_code]
          match env.tts_result with
          | none => (updRun t now "failed" none (some "Failed to generate dubbed audio"), calls)
          | some dubbed_audio_path =>
            let t := { t with dubbed_audio_path := some dubbed_audio_path }
            let t := updRun t now "processing" (some 90) none
            let calls := calls ++ [StageCall.mergeAudio video_path dubbed_audio_path]
            match env.merge_result with
            | none => (updRun t now "failed" none (some "Failed to merge audio with video"), calls)
            | some final_video_path =>
              let t := { t with final_video_path := some final_video_path }
              let t := updRun t now "completed" (some 100) none
              (t, calls ++ [StageCall.cleanup download_dir])

/-! ## Example inputs -/

/-- An outcome entry with the given parameter combination and result. -/
def mkEntry (p c s : Bool) : OutcomeEntry :=
  { timestamp := 0, url := "https://youtu.be/x", success := s, error_message := none,
    mitigation_params :=
      { user_agent := none, sleep_interval := none, proxy_used := p, cookies_used := c } }

/-- Example log: nine successes and one failure, all with proxy and cookies
on — success rate 9/10 for `(true, true)`, no attempts elsewhere. -/
def exampleLog : List LogLine :=
  List.replicate 9 (.parsed (mkEntry true true true)) ++ [.parsed (mkEntry true true false)]

/-- A freshly created record at `pending`. -/
def pendingTask : VideoTask :=
  { id := "t1", youtube_url := "https://youtu.be/x", target_language := "es",
    source_language := "auto", status := "pending", progress := 0,
    error_message := none, original_video_path := none, original_audio_path := none,
    dubbed_audio_path := none, final_video_path := none, transcription_text := none,
    translated_text := none, processing_time := none, created_at := 0,
    updated_at := 0, started_at := none, completed_at := none }

/-- A record already in the terminal status `completed`. -/
def completedTask : VideoTask :=
  { pendingTask with
    status := "completed"
    progress := 100
    started_at := some 1
    completed_at := some 2 }

/-- Collaborator results where preprocessing fails and every other stage
succeeds. -/
def preprocessFailEnv : PipelineEnv :=
  { download_result := some "/tmp/dubbing/t1/video.mp4"
    extract_result := some "/tmp/dubbing/t1/video_audio.wav"
    preprocess_result := none
    transcribe_result := some "hello"
    translate_result := some "hola"
    tts_result := some "/tmp/dubbed.mp3"
    merge_result := some "/tmp/final.mp4" }

/-- Collaborator results where acquisition and extraction succeed but
transcription fails. -/
def transcribeFailEnv : PipelineEnv :=
  { download_result := some "/tmp/dubbing/t1/video.mp4"
    extract_result := some "/tmp/dubbing/t1/video_audio.wav"
    preprocess_result := some "/tmp/dubbing/t1/video_audio_processed.wav"
    transcribe_result := none
    translate_result := none
    tts_result := none
    merge_result := none }

/-! ## Helper lemmas -/

lemma tally_all_malformed (ls : List LogLine)
    (hml : ∀ l ∈ ls, ∃ r, l = LogLine.malformed r) (p c : Bool) :
    tally ls p c = (0, 0) := by
  unfold tally
  induction ls with
  | nil => rfl
  | cons l ls ih =>
    obtain ⟨r, rfl⟩ := hml l (List.mem_cons_self l ls)
    simpa using ih fun l hl => hml l (List.mem_cons_of_mem _ hl)

lemma rates_nonneg (fs : FileState) (p c : Bool) : 0 ≤ analyze_logs fs p c := by
  cases fs with
  | absent => simp [analyze_logs]
  | unreadable => simp [analyze_logs]
  | lines ls =>
    simp only [analyze_logs]
    split
    · exact le_refl 0
    · positivity

lemma selectBest_zero : selectBest (fun _ _ => 0) = ((true, true), 0) := by
  norm_num [selectBest, enumOrder]

lemma selectBest_spec (r : Bool → Bool → ℚ) (h0 : ∀ p c, 0 ≤ r p c) :
    ∃ pre post,
      enumOrder = pre ++ (selectBest r).1 :: post ∧
      (∀ k ∈ pre, r k.1 k.2 < r (selectBest r).1.1 (selectBest r).1.2) ∧
      (∀ k ∈ enumOrder, r k.1 k.2 ≤ r (selectBest r).1.1 (selectBest r).1.2) := by
  have ha := h0 true true
  have hb := h0 true false
  have hc := h0 false true
  have hd := h0 false false
  simp only [selectBest, enumOrder, List.foldl_cons, List.foldl_nil]
  rw [if_pos (show (-1 : ℚ) < r true true by linarith)]
  split_ifs with h1 h2 h3 h4 h5 h6 h7
  · refine ⟨[(true, true), (true, false), (false, true)], [], rfl, ?_, ?_⟩ <;>
      (intro k hk; fin_cases hk <;> simp <;> linarith)
  · refine ⟨[(true, true), (true, false)], [(false, false)], rfl, ?_, ?_⟩ <;>
      (intro k hk; fin_cases hk <;> simp <;> linarith)
  · refine ⟨[(true, true), (true, false), (false, true)], [], rfl, ?_, ?_⟩ <;>
      (intro k hk; fin_cases hk <;> simp <;> linarith)
  · refine ⟨[(true, true)], [(false, true), (false, false)], rfl, ?_, ?_⟩ <;>
      (intro k hk; fin_cases hk <;> simp <;> linarith)
  · refine ⟨[(true, true), (true, false), (false, true)], [], rfl, ?_, ?_⟩ <;>
      (intro k hk; fin_cases hk <;> simp <;> linarith)
  · refine ⟨[(true, true), (true, false)], [(false, false)], rfl, ?_, ?_⟩ <;>
      (intro k hk; fin_cases hk <;> simp <;> linarith)
  · refine ⟨[(true, true), (true, false), (false, true)], [], rfl, ?_, ?_⟩ <;>
      (intro k hk; fin_cases hk <;> simp <;> linarith)
  · refine ⟨[], [(true, false), (false, true), (false, false)], rfl, ?_, ?_⟩ <;>
      (intro k hk; fin_cases hk <;> simp <;> linarith)

lemma rate_example_tt : analyze_logs (.lines exampleLog) true true = 9 / 10 := by
  simp [analyze_logs, tally, exampleLog, List.replicate, mkEntry]

lemma rate_example_tf : analyze_logs (.lines exampleLog) true false = 0 := by
  simp [analyze_logs, tally, exampleLog, List.replicate, mkEntry]

lemma rate_example_ft : analyze_logs (.lines exampleLog) false true = 0 := by
  simp [analyze_logs, tally, exampleLog, List.replicate, mkEntry]

lemma rate_example_ff : analyze_logs (.lines exampleLog) false false = 0 := by
  simp [analyze_logs, tally, exampleLog, List.replicate, mkEntry]

lemma selectBest_example :
    selectBest (analyze_logs (.lines exampleLog)) = ((true, true), 9 / 10) := by
  norm_num [selectBest, enumOrder, rate_example_tt, rate_example_tf,
    rate_example_ft, rate_example_ff]

lemma update_status_tail_status (t : VideoTask) (now : Nat) (s : String)
    (e : Option String) : (update_status_tail t now s e).status = t.status := by
  simp only [update_status_tail]
  cases e <;> split_ifs <;> (try split) <;> rfl

lemma update_status_tail_started (t : VideoTask) (now : Nat) (s : String)
    (e : Option String) :
    (update_status_tail t now s e).started_at =
      if (s = "downloading" ∨ s = "processing") ∧ t.started_at = none then some now
      else t.started_at := by
  simp only [update_status_tail]
  cases e <;> split_ifs <;> (try split) <;> simp_all

lemma updRun_downloading (t : VideoTask) (now : Nat) :
    updRun t now "downloading" (some 10) none =
      { t with
        status := "downloading"
        progress := 10
        started_at := if t.started_at = none then some now else t.started_at
        updated_at := now } := by
  split_ifs with h <;>
    simp [updRun, update_status, update_status_tail, validStatuses, h]

lemma updRun_processing (t : VideoTask) (now : Nat) (q : Int) :
    updRun t now "processing" (some q) none =
      if 0 ≤ q ∧ q ≤ 100 then
        { t with
          status := "processing"
          progress := q
          started_at := if t.started_at = none then some now else t.started_at
          updated_at := now }
      else { t with status := "processing" } := by
  by_cases h : 0 ≤ q ∧ q ≤ 100
  · rw [if_pos h]
    split_ifs with h2 <;>
      simp [updRun, update_status, update_status_tail, validStatuses, h, h2]
  · rw [if_neg h]
    simp [updRun, update_status, update_status_tail, validStatuses, h]

lemma updRun_failed (t : VideoTask) (now : Nat) (m : String) :
    updRun t now "failed" none (some m) =
      { t with
        status := "failed"
        error_message := some m
        updated_at := now } := by
  simp [updRun, update_status, update_status_tail, validStatuses]

lemma updRun_completed (t : VideoTask) (now : Nat) :
    updRun t now "completed" (some 100) none =
      { t with
        status := "completed"
        progress := 100
        completed_at := some now
        processing_time :=
          match t.started_at with
          | some s0 => some ((now : Int) - (s0 : Int))
          | none => t.processing_time
        updated_at := now } := by
  cases h : t.started_at <;>
    simp [updRun, update_status, update_status_tail, validStatuses, h]

/-! ## The claims -/

/-- Claim C1 (amended): with an empty, unreadable or entirely malformed
log the call still cannot raise (the function is total), but it returns
`proxy=true, cookies=true`, not the pair `(false, false)`: the running
best starts at rate `-1`, so the first-enumerated pair `(True, True)`
with default rate `0.0` always replaces it. -/
theorem c1_degraded_log_returns_true_true (fs : FileState) (uaIdx : Fin 3) (sleep : ℚ)
    (h : fs = .absent ∨ fs = .unreadable ∨
         ∃ ls, fs = .lines ls ∧ ∀ l ∈ ls, ∃ r, l = LogLine.malformed r) :
    (get_adaptive_params fs uaIdx sleep).proxy_enabled = true ∧
    (get_adaptive_params fs uaIdx sleep).cookies_enabled = true := by
  have hr : analyze_logs fs = fun _ _ => 0 := by
    rcases h with rfl | rfl | ⟨ls, rfl, hml⟩
    · rfl
    · rfl
    · funext p c
      simp [analyze_logs, tally_all_malformed ls hml p c]
  simp [get_adaptive_params, hr, selectBest_zero]

/-- Claim C1, counterexample to the claim as stated: on the empty
(absent) log, `get_adaptive_params` does **not** return
`(proxy=false, cookies=false)`. -/
theorem c1_counterexample :
    ¬ ((get_adaptive_params .absent 0 1).proxy_enabled = false ∧
       (get_adaptive_params .absent 0 1).cookies_enabled = false) := by
  norm_num [get_adaptive_params, analyze_logs, selectBest_zero]

/-- Claim C1, witness: the amended theorem applied to the absent log. -/
theorem c1_witness :
    (get_adaptive_params .absent 0 1).proxy_enabled = true ∧
    (get_adaptive_params .absent 0 1).cookies_enabled = true :=
  c1_degraded_log_returns_true_true .absent 0 1 (Or.inl rfl)

/-- Claim C2 (amended): `update_status` performs no terminal-status check:
a record in `completed`, `failed` or `cancelled` accepts any transition to
a valid status with in-range progress exactly like a non-terminal record,
and the record is changed (status becomes the new status). -/
theorem c2_terminal_not_rejected (t : VideoTask) (now : Nat) (s : String)
    (p : Int) (e : Option String)
    (_hterm : t.status ∈ ["completed", "failed", "cancelled"])
    (hs : s ∈ validStatuses) (hp : 0 ≤ p ∧ p ≤ 100) :
    ∃ t', update_status t now s (some p) e = .ok t' ∧ t'.status = s := by
  have h : update_status t now s (some p) e =
      .ok (update_status_tail { t with status := s, progress := p } now s e) := by
    unfold update_status
    rw [if_pos hs]
    simp [hp]
  exact ⟨_, h, by rw [update_status_tail_status]⟩

/-- Claim C2, counterexample to the claim as stated: a `completed` record
is transitioned to `downloading` without rejection, and the record is
changed. -/
theorem c2_counterexample :
    update_status completedTask 5 "downloading" (some 10) none =
      .ok { completedTask with
            status := "downloading"
            progress := 10
            updated_at := 5 } ∧
    ({ completedTask with
       status := "downloading"
       progress := 10
       updated_at := 5 } : VideoTask) ≠ completedTask := by
  exact ⟨rfl, by decide⟩

/-- Claim C2, witness for the amended theorem at a concrete record. -/
theorem c2_witness :
    ∃ t', update_status completedTask 5 "downloading" (some 10) none = .ok t' ∧
      t'.status = "downloading" :=
  c2_terminal_not_rejected completedTask 5 "downloading" 10 none (by decide)
    (by decide) (by decide)

/-- Claim C3 (confirmed): the returned `(proxy, cookies)` pair is the
selection-loop result; that result is the first pair in the enumeration
order `[(T,T), (T,F), (F,T), (F,F)]` whose rate strictly exceeds every
earlier pair's rate and is at least every pair's rate; on the example log
with rate 9/10 at `(true, true)` and no other attempts it returns
`(true, true)`; and the pair is a deterministic function of the log,
independent of the randomized user-agent and delay. -/
theorem c3_selection_first_strict_max (fs : FileState) (uaIdx uaIdx' : Fin 3)
    (sleep sleep' : ℚ) :
    (∃ pre post,
      enumOrder = pre ++ (selectBest (analyze_logs fs)).1 :: post ∧
      (∀ k ∈ pre, analyze_logs fs k.1 k.2 <
        analyze_logs fs (selectBest (analyze_logs fs)).1.1 (selectBest (analyze_logs fs)).1.2) ∧
      (∀ k ∈ enumOrder, analyze_logs fs k.1 k.2 ≤
        analyze_logs fs (selectBest (analyze_logs fs)).1.1 (selectBest (analyze_logs fs)).1.2)) ∧
    ((get_adaptive_params fs uaIdx sleep).proxy_enabled,
     (get_adaptive_params fs uaIdx sleep).cookies_enabled) = (selectBest (analyze_logs fs)).1 ∧
    analyze_logs (.lines exampleLog) true true = 9 / 10 ∧
    (get_adaptive_params (.lines exampleLog) uaIdx sleep).proxy_enabled = true ∧
    (get_adaptive_params (.lines exampleLog) uaIdx sleep).cookies_enabled = true ∧
    (get_adaptive_params fs uaIdx sleep).proxy_enabled =
      (get_adaptive_params fs uaIdx' sleep').proxy_enabled ∧
    (get_adaptive_params fs uaIdx sleep).cookies_enabled =
      (get_adaptive_params fs uaIdx' sleep').cookies_enabled := by
  refine ⟨selectBest_spec _ (rates_nonneg fs), ?_, rate_example_tt, ?_, ?_, rfl, rfl⟩
  · simp [get_adaptive_params]
  · simp [get_adaptive_params, selectBest_example]
  · simp [get_adaptive_params, selectBest_example]

/-- Claim C4 (amended): a transition call whose progress argument is
outside `[0, 100]` fails with the progress-validation error and leaves
every field except `status` unchanged — but the `status` field has
already been set to the new status by the time the error is raised, so
the record is not left entirely unchanged.  `progress` itself is
untouched, so `0 ≤ progress ≤ 100` still holds afterwards whenever it
held before. -/
theorem c4_out_of_range_progress (t : VideoTask) (now : Nat) (s : String)
    (p : Int) (e : Option String) (hs : s ∈ validStatuses)
    (hp : ¬(0 ≤ p ∧ p ≤ 100)) :
    update_status t now s (some p) e =
      .error ("Progress must be between 0 and 100", { t with status := s }) := by
  unfold update_status
  rw [if_pos hs]
  simp [hp]

/-- Claim C4, counterexample to the claim as stated: the failing call
mutates the record's status before raising. -/
theorem c4_counterexample :
    update_status pendingTask 5 "downloading" (some 150) none =
      .error ("Progress must be between 0 and 100",
        { pendingTask with status := "downloading" }) ∧
    ({ pendingTask with status := "downloading" } : VideoTask) ≠ pendingTask := by
  exact ⟨rfl, by decide⟩

/-- Claim C4, witness for the amended theorem at a concrete record. -/
theorem c4_witness :
    update_status pendingTask 5 "downloading" (some 150) none =
      .error ("Progress must be between 0 and 100",
        { pendingTask with status := "downloading" }) :=
  c4_out_of_range_progress pendingTask 5 "downloading" 150 none (by decide)
    (by decide)

/-- Claim C5 (amended): the orchestrator removes its working directory
`/tmp/dubbing/{task_id}` only when the run ends in `completed`; every
failure path returns without the cleanup call. -/
theorem c5_cleanup_only_on_success (env : PipelineEnv) (t0 : VideoTask) (now : Nat) :
    StageCall.cleanup ("/tmp/dubbing/" ++ t0.id) ∈ (dubbing_task env t0 now).2 ↔
      (dubbing_task env t0 now).1.status = "completed" := by
  rcases env with ⟨d, ex, pp, tr, tl, ts, mg⟩
  cases h0 : t0.started_at <;> cases d <;> cases ex <;> cases pp <;> cases tr <;>
    cases tl <;> cases ts <;> cases mg <;>
    simp [dubbing_task, updRun_downloading, updRun_processing, updRun_failed,
      updRun_completed, h0]

/-- Claim C5, counterexample to the claim as stated: a run that reaches
the terminal state `failed` (transcription failure) does not release its
working directory — no cleanup call appears in the trace. -/
theorem c5_counterexample :
    (dubbing_task transcribeFailEnv pendingTask 5).1.status = "failed" ∧
    StageCall.cleanup ("/tmp/dubbing/" ++ pendingTask.id) ∉
      (dubbing_task transcribeFailEnv pendingTask 5).2 := by
  exact ⟨rfl, by decide⟩

/-- Claim C6 (amended): on a readable log, `record_outcome` appends
exactly one entry at the end and preserves every previously *parsed*
record unchanged and in order — but it does so by rewriting the whole
file, dropping malformed lines, rather than by an atomic append of the
single new entry. -/
theorem c6_record_outcome_rewrites (ls : List LogLine) (entry : OutcomeEntry) :
    record_outcome { fs := .lines ls, mkdir_fails := false, write_fails_after := none } entry =
      .ok (.lines ((parsedEntries ls).map LogLine.parsed ++ [LogLine.parsed entry])) := by
  simp [record_outcome, record_outcome_body]

/-- Claim C6, counterexample to the claim as stated: appending to a log
containing one malformed line removes that line — the prior file content
is not left unchanged, so the append is not a single write of one
self-contained entry. -/
theorem c6_counterexample :
    record_outcome { fs := .lines [.malformed "not json"], mkdir_fails := false,
                     write_fails_after := none } (mkEntry true true true) =
      .ok (.lines [.parsed (mkEntry true true true)]) ∧
    LogLine.malformed "not json" ∉ [LogLine.parsed (mkEntry true true true)] := by
  constructor
  · rfl
  · simp

/-- Claim C7 (amended): on every successful transition, `started_at` is
set (to the transition time) exactly when the new status is `downloading`
or `processing` and `started_at` was still unset — not on the first
transition to an arbitrary non-`pending` status — and once set it is
never modified by any later transition. -/
theorem c7_started_at_rule (t t' : VideoTask) (now : Nat) (s : String)
    (p : Option Int) (e : Option String)
    (h : update_status t now s p e = .ok t') :
    t'.started_at =
      if (s = "downloading" ∨ s = "processing") ∧ t.started_at = none then some now
      else t.started_at := by
  unfold update_status at h
  split at h
  · cases p with
    | none =>
      rw [Except.ok.injEq] at h
      rw [← h, update_status_tail_started]
    | some q =>
      dsimp only at h
      split at h
      · rw [Except.ok.injEq] at h
        rw [← h, update_status_tail_started]
      · exact absurd h (by simp)
  · exact absurd h (by simp)

/-- Claim C7, counterexample to the claim as stated: the first transition
away from `pending` to the non-`pending` status `uploading` leaves
`started_at` unset. -/
theorem c7_counterexample :
    update_status pendingTask 5 "uploading" (some 60) none =
      .ok { pendingTask with
            status := "uploading"
            progress := 60
            updated_at := 5 } ∧
    ({ pendingTask with
       status := "uploading"
       progress := 60
       updated_at := 5 } : VideoTask).started_at = none := by
  exact ⟨rfl, rfl⟩

/-- Claim C7, witness for the amended theorem at a concrete transition. -/
theorem c7_witness :
    ({ pendingTask with
       status := "downloading"
       progress := 10
       started_at := some 5
       updated_at := 5 } : VideoTask).started_at =
      if (("downloading" : String) = "downloading" ∨
          ("downloading" : String) = "processing") ∧ pendingTask.started_at = none
      then some 5 else pendingTask.started_at :=
  c7_started_at_rule pendingTask _ 5 "downloading" (some 10) none rfl

/-- Claim C8 (confirmed): when acquisition and extraction succeed but
preprocessing fails, the run does not abort: preprocessing is attempted,
and the transcription stage is still reached with the raw extracted audio
path as its input (and that path is recorded on the task). -/
theorem c8_preprocess_failure_swallowed (env : PipelineEnv) (t0 : VideoTask)
    (now : Nat) (vp ap : String)
    (hd : env.download_result = some vp) (he : env.extract_result = some ap)
    (hp : env.preprocess_result = none) :
    StageCall.preprocess ap ∈ (dubbing_task env t0 now).2 ∧
    StageCall.transcribe ap t0.source_language ∈ (dubbing_task env t0 now).2 ∧
    (dubbing_task env t0 now).1.original_audio_path = some ap := by
  rcases env with ⟨d, ex, pp, tr, tl, ts, mg⟩
  simp only [PipelineEnv.download_result] at hd
  subst hd
  simp only [PipelineEnv.extract_result] at he
  subst he
  simp only [PipelineEnv.preprocess_result] at hp
  subst hp
  cases h0 : t0.started_at <;> cases tr <;> cases tl <;> cases ts <;> cases mg <;>
    simp [dubbing_task, updRun_downloading, updRun_processing, updRun_failed,
      updRun_completed, h0]

/-- Claim C8, witness at a concrete run. -/
theorem c8_witness :
    StageCall.preprocess "/tmp/dubbing/t1/video_audio.wav" ∈
      (dubbing_task preprocessFailEnv pendingTask 5).2 ∧
    StageCall.transcribe "/tmp/dubbing/t1/video_audio.wav"
        pendingTask.source_language ∈
      (dubbing_task preprocessFailEnv pendingTask 5).2 ∧
    (dubbing_task preprocessFailEnv pendingTask 5).1.original_audio_path =
      some "/tmp/dubbing/t1/video_audio.wav" :=
  c8_preprocess_failure_swallowed preprocessFailEnv pendingTask 5 _ _ rfl rfl rfl

/-- Claim C9 (amended): when acquisition and extraction succeed and
transcription fails, the record ends at status `failed` with progress
still at the checkpoint 50, and the error message is
`"Failed to transcribe audio"` — which contains the substring
`"transcribe"` but not the substring `"transcription"`. -/
theorem c9_transcription_failure (env : PipelineEnv) (t0 : VideoTask) (now : Nat)
    (vp ap : String)
    (hd : env.download_result = some vp) (he : env.extract_result = some ap)
    (ht : env.transcribe_result = none) :
    (dubbing_task env t0 now).1.status = "failed" ∧
    (dubbing_task env t0 now).1.progress = 50 ∧
    (dubbing_task env t0 now).1.error_message = some "Failed to transcribe audio" ∧
    "transcribe".data <:+: "Failed to transcribe audio".data ∧
    ¬ "transcription".data <:+: "Failed to transcribe audio".data := by
  refine ⟨?_, ?_, ?_, by decide, by decide⟩ <;>
    rcases env with ⟨d, ex, pp, tr, tl, ts, mg⟩ <;>
    simp only [PipelineEnv.download_result] at hd <;> subst hd <;>
    simp only [PipelineEnv.extract_result] at he <;> subst he <;>
    simp only [PipelineEnv.transcribe_result] at ht <;> subst ht <;>
    cases pp <;> cases h0 : t0.started_at <;>
    simp [dubbing_task, updRun_downloading, updRun_processing, updRun_failed, h0]

/-- Claim C9, counterexample to the claim as stated: on a transcription
failure the record ends `failed` at progress 50, but its error message
does not contain the substring `"transcription"`. -/
theorem c9_counterexample :
    (dubbing_task transcribeFailEnv pendingTask 5).1.status = "failed" ∧
    (dubbing_task transcribeFailEnv pendingTask 5).1.progress = 50 ∧
    (dubbing_task transcribeFailEnv pendingTask 5).1.error_message =
      some "Failed to transcribe audio" ∧
    ¬ "transcription".data <:+: "Failed to transcribe audio".data := by
  exact ⟨rfl, rfl, rfl, by decide⟩

/-- Claim C9, witness for the amended theorem at a concrete run. -/
theorem c9_witness :
    (dubbing_task transcribeFailEnv pendingTask 5).1.status = "failed" ∧
    (dubbing_task transcribeFailEnv pendingTask 5).1.progress = 50 ∧
    (dubbing_task transcribeFailEnv pendingTask 5).1.error_message =
      some "Failed to transcribe audio" ∧
    "transcribe".data <:+: "Failed to transcribe audio".data ∧
    ¬ "transcription".data <:+: "Failed to transcribe audio".data :=
  c9_transcription_failure transcribeFailEnv pendingTask 5 _ _ rfl rfl rfl

/-- Claim C10 (confirmed): `record_outcome` never raises to its caller —
for every file state and failure pattern (missing directory, unreadable
file, malformed lines, failing write) it returns normally; the outer
`try/except Exception` swallows every error. -/
theorem c10_record_outcome_never_raises (env : RecordEnv) (entry : OutcomeEntry) :
    ∃ fs, record_outcome env entry = .ok fs := by
  unfold record_outcome
  rcases hb : record_outcome_body env entry with ⟨m, fs⟩ | fs
  · exact ⟨fs, by simp⟩
  · exact ⟨fs, by simp⟩

